import Mathlib

/-!
Verification of the booking-validation and multi-sink commit workflow of the
doctor-appointment assistant (`src/app.py`).

The embedding translates the four tool functions of `app.py` into pure Lean
functions.  Network effects (the two Sanity HTTP calls and the webhook call)
are made explicit parameters: each HTTP response is a value describing the
status code and, for the conflict-check query, the JSON `result` field.
The local `appointments.json` file is threaded as explicit state.
-/

/-- A record of the remote document store (a Sanity `appointment` document),
as built by `save_appointment` in `app.py` lines 48-60. -/
structure SanityDoc where
  patientName : String
  email : String
  doctorName : String
  date : String
  time : String
  status : String
deriving DecidableEq, Repr

/-- The (doctorName, date, time) slot triple of a remote record. -/
def SanityDoc.triple (a : SanityDoc) : String × String × String :=
  (a.doctorName, a.date, a.time)

/-- An HTTP response as consumed by `save_appointment`'s conflict check:
`status_code`, and the JSON body's `result` field (the GROQ query
`*[_type == "appointment" && ...][0]` yields the first matching document or
null, so the field is an `Option`; `Option.isSome` models Python truthiness
of the returned document). -/
structure HttpResp where
  status_code : Nat
  result : Option SanityDoc
deriving DecidableEq, Repr

/-- The predicate of the GROQ conflict query in `app.py` line 37:
a stored document matches when its doctorName, date and time equal the
requested ones. -/
def sanityMatches (doctorName date time : String) (a : SanityDoc) : Bool :=
  a.doctorName == doctorName && a.date == date && a.time == time

/-- What the remote store's query endpoint answers when it works: the first
stored document matching (doctorName, date, time), or none. -/
def queryFind (store : List SanityDoc) (doctorName date time : String) :
    Option SanityDoc :=
  store.find? (sanityMatches doctorName date time)

/-- An honestly-behaving conflict-check response: status 200 and the
`result` field reflecting the store's actual contents. -/
def honestCheck (store : List SanityDoc) (doctorName date time : String) :
    HttpResp :=
  ⟨200, queryFind store doctorName date time⟩

/-- The document built by the create-mutation of `app.py` lines 48-60. -/
def mkPendingDoc (patientName email doctorName date time : String) : SanityDoc :=
  ⟨patientName, email, doctorName, date, time, "pending"⟩

/-- Result of one `save_appointment` call: the remote store afterwards, the
create-mutation document submitted (if any), and the returned string. -/
structure SaveResult where
  store : List SanityDoc
  submitted : Option SanityDoc
  message : String
deriving DecidableEq, Repr

/-- `save_appointment` (`app.py` lines 35-62).  `check` is the response of
the conflict-check POST (line 40); `mutStatus` is the status code with which
the store acknowledges the mutation POST (line 61), the record being stored
exactly when the store acknowledges with 200.  Line 45's condition
`check.status_code == 200 and check.json().get("result")` becomes
`check.status_code == 200 && check.result.isSome`. -/
def save_appointment (store : List SanityDoc) (check : HttpResp)
    (mutStatus : Nat)
    (patientName email doctorName date time : String) : SaveResult :=
  if check.status_code == 200 && check.result.isSome then
    ⟨store, none, "⛔ Sorry, this time slot is already booked!"⟩
  else
    let doc := mkPendingDoc patientName email doctorName date time
    if mutStatus == 200 then
      ⟨store ++ [doc], some doc, "✅ Appointment saved to Sanity."⟩
    else
      ⟨store, some doc, "❌ Sanity save failed."⟩

/-- A record of the local `appointments.json` store, as appended by
`confirm_patient` (`app.py` line 108). -/
structure LocalRec where
  patient : String
  doctor : String
  date : String
  time : String
deriving DecidableEq, Repr

/-- The (doctor, date, time) slot triple of a local record. -/
def LocalRec.triple (a : LocalRec) : String × String × String :=
  (a.doctor, a.date, a.time)

/-- The linear-scan predicate of `app.py` line 106. -/
def localMatches (doctor_name date time : String) (a : LocalRec) : Bool :=
  a.doctor == doctor_name && a.date == date && a.time == time

/-- Reading the local store (`app.py` line 104):
`json.load(open(file)) if os.path.exists(file) else []` — a missing file
(`none`) reads as the empty list. -/
def readStore (fs : Option (List LocalRec)) : List LocalRec :=
  fs.getD []

/-- The success string of `app.py` line 110. -/
def confirmMsg (patient_name doctor_name date time : String) : String :=
  s!"✅ Appointment confirmed for {patient_name} with {doctor_name} on {date} at {time}."

/-- Result of one `confirm_patient` call: the local file afterwards, whether
the file was (re)written, and the returned string. -/
structure LocalResult where
  fs : Option (List LocalRec)
  wrote : Bool
  message : String
deriving DecidableEq, Repr

/-- `confirm_patient` (`app.py` lines 101-112) on well-formed stores: read the
list (empty if the file is absent), linear-scan for a (doctor, date, time)
match, fail on a match, otherwise append and rewrite the whole file.
(The exception-handling wrapper over raw, possibly malformed file contents is
modelled separately by `confirm_patient_raw`.) -/
def confirm_patient (fs : Option (List LocalRec))
    (patient_name doctor_name date time : String) : LocalResult :=
  let data := readStore fs
  if data.any (localMatches doctor_name date time) then
    ⟨fs, false, "❌ Doctor already booked at that time."⟩
  else
    let data2 := data ++ [⟨patient_name, doctor_name, date, time⟩]
    ⟨some data2, true, confirmMsg patient_name doctor_name date time⟩

/-- Outcome of the webhook POST of `send_doctor_request` (`app.py` line 94):
either a response with some status code, or a raised exception (caught at
line 96), carrying the exception's string rendering. -/
inductive WebhookOutcome where
  | response (status_code : Nat)
  | except (e : String)
deriving DecidableEq, Repr

/-- `send_doctor_request` (`app.py` lines 91-97). -/
def send_doctor_request (outcome : WebhookOutcome)
    (patient_name doctor_name date time : String) : String :=
  match outcome with
  | .response code =>
      if code == 200 then "✅ Doctor notified via webhook!"
      else s!"❌ Webhook failed ({code})"
  | .except e => s!"❌ Webhook error: {e}"

/-- One availability record of the doctor directory: specialty, and the
availability mapping from day-group label to (period label, time-range)
pairs, kept as association lists to preserve the literal's entry order. -/
structure DoctorRecord where
  specialty : String
  availability : List (String × List (String × String))
deriving DecidableEq, Repr

/-- `get_doctors` (`app.py` lines 66-87): the fixed doctor directory. -/
def get_doctors : List (String × DoctorRecord) :=
  [ ("Dr. Khan",
      { specialty := "Dermatologist",
        availability :=
          [ ("Monday to Friday",
              [ ("Morning", "10:00 AM - 2:00 PM"),
                ("Evening", "7:00 PM - 10:00 PM") ]) ] }),
    ("Dr. Ahmed",
      { specialty := "Neurologist",
        availability :=
          [ ("Monday to Friday", [ ("Evening", "7:00 PM - 11:00 PM") ]),
            ("Saturday",
              [ ("Morning", "10:00 AM - 2:00 PM"),
                ("Evening", "7:00 PM - 11:00 PM") ]) ] }) ]

/-- A raw record of `appointments.json` as far as `confirm_patient`'s scan is
concerned: each of the four keys may be absent (subscripting an absent key
raises `KeyError` in Python). -/
structure RawRec where
  patient : Option String
  doctor : Option String
  date : Option String
  time : Option String
deriving DecidableEq, Repr

/-- The condition of the local file behind `confirm_patient`: missing,
present but unparseable (or not a list of objects), or a parsed list of raw
records. -/
inductive LocalFile where
  | missing
  | corrupt
  | records (l : List RawRec)
deriving DecidableEq, Repr

/-- `app.py` line 104: a missing file reads as `[]`; an unparseable file
makes `json.load` raise. -/
def readRaw : LocalFile → Except String (List RawRec)
  | .missing => .ok []
  | .corrupt => .error "Expecting value: line 1 column 1 (char 0)"
  | .records l => .ok l

/-- The scan of `app.py` lines 105-107 on raw records, with Python's
left-to-right short-circuit: `a["doctor"]` is subscripted on every record
visited, `a["date"]` and `a["time"]` only if the earlier comparisons
succeed; an absent key raises `KeyError`.  Returns whether a full match was
found. -/
def scanRaw (doctor_name date time : String) : List RawRec → Except String Bool
  | [] => .ok false
  | a :: rest =>
    match a.doctor with
    | none => .error "KeyError: doctor"
    | some d =>
      if d == doctor_name then
        match a.date with
        | none => .error "KeyError: date"
        | some dd =>
          if dd == date then
            match a.time with
            | none => .error "KeyError: time"
            | some tt =>
              if tt == time then .ok true
              else scanRaw doctor_name date time rest
          else scanRaw doctor_name date time rest
      else scanRaw doctor_name date time rest

/-- The failure string of `app.py` line 112. -/
def failMsg (e : String) : String :=
  s!"❌ Failed to confirm appointment: {e}"

/-- `confirm_patient` (`app.py` lines 101-112) over raw file conditions,
with the `try`/`except` wrapper: any exception raised while reading,
scanning or writing is rendered into the failure string.  `writeFails`
says whether the rewrite at line 109 raises; since `open(file, "w")`
truncates before `json.dump` writes, a failing write leaves the file
corrupt. -/
def confirm_patient_raw (fs : LocalFile) (writeFails : Bool)
    (patient_name doctor_name date time : String) : LocalFile × String :=
  match readRaw fs with
  | .error e => (fs, failMsg e)
  | .ok data =>
    match scanRaw doctor_name date time data with
    | .error e => (fs, failMsg e)
    | .ok true => (fs, "❌ Doctor already booked at that time.")
    | .ok false =>
      let data2 := data ++ [⟨some patient_name, some doctor_name, some date, some time⟩]
      if writeFails then (.corrupt, failMsg "write error")
      else (.records data2, confirmMsg patient_name doctor_name date time)

/-- The joint storage of the two conflict-checked persistence sinks: the
remote document store and the local `appointments.json` file. -/
structure SysState where
  remote : List SanityDoc
  localFile : Option (List LocalRec)
deriving DecidableEq, Repr

/-- Both sinks empty: no remote records, local file not yet created. -/
def initState : SysState := ⟨[], none⟩

/-- One invocation of a persistence sink, with its network environment:
a `save_appointment` call carries the conflict-check response and the
mutation acknowledgement status, a `confirm_patient` call only its
arguments. -/
inductive Step where
  | save (check : HttpResp) (mutStatus : Nat)
      (patientName email doctorName date time : String)
  | confirm (patient_name doctor_name date time : String)
deriving DecidableEq, Repr

/-- Apply one sink invocation to the joint storage. -/
def applyStep (s : SysState) : Step → SysState
  | .save check mutStatus p e d dt t =>
      { s with remote := (save_appointment s.remote check mutStatus p e d dt t).store }
  | .confirm p d dt t =>
      { s with localFile := (confirm_patient s.localFile p d dt t).fs }

/-- Apply a sequence of sink invocations in order. -/
def runSteps (s : SysState) (l : List Step) : SysState :=
  l.foldl applyStep s

/-- Per-sink slot uniqueness: each sink's own storage holds at most one
record per (doctor, date, time) triple. -/
def sinkUnique (s : SysState) : Prop :=
  (s.remote.map SanityDoc.triple).Nodup ∧
  ((readStore s.localFile).map LocalRec.triple).Nodup

instance (s : SysState) : Decidable (sinkUnique s) := by
  unfold sinkUnique; infer_instance

/-- States reachable from empty storage when every `save_appointment`
call's conflict-check query behaves honestly (status 200, `result` the
store's actual lookup); the mutation acknowledgement and all
`confirm_patient` calls remain arbitrary. -/
inductive ReachableHonest : SysState → Prop
  | init : ReachableHonest initState
  | save (s : SysState) (mutStatus : Nat) (p e d dt t : String) :
      ReachableHonest s →
      ReachableHonest (applyStep s (.save (honestCheck s.remote d dt t) mutStatus p e d dt t))
  | confirm (s : SysState) (p d dt t : String) :
      ReachableHonest s →
      ReachableHonest (applyStep s (.confirm p d dt t))

/-- The view of the doctor directory at any storage state: `get_doctors`
reads no state and performs no mutation, so the view is the constant
directory. -/
def queryDoctors (_ : SysState) : List (String × DoctorRecord) :=
  get_doctors

/-- Modelled from the spec: the Slot Validator (§4.2) is not present in
`src/app.py` — the availability check is advisory, performed by the
orchestrating agent's natural-language reasoning — so its contract is
modelled here from the spec's words.  The weekday names, used to interpret
a day-group range label. -/
def weekdayNames : List String :=
  ["Monday", "Tuesday", "Wednesday", "Thursday", "Friday", "Saturday", "Sunday"]

/-- Strip an exact leading character sequence, or fail. -/
def dropExact : List Char → List Char → Option (List Char)
  | [], l => some l
  | _ :: _, [] => none
  | a :: as, b :: bs => if a = b then dropExact as bs else none

/-- Split a character sequence at the first occurrence of a separator
sequence, or fail when the separator does not occur. -/
def splitFirst (sep : List Char) : List Char → Option (List Char × List Char)
  | [] => none
  | c :: rest =>
    match dropExact sep (c :: rest) with
    | some tail => some ([], tail)
    | none =>
      match splitFirst sep rest with
      | some (before, after) => some (c :: before, after)
      | none => none

/-- The numeric value of a decimal digit character. -/
def digitVal (c : Char) : Option Nat :=
  if c.isDigit then some (c.toNat - 48) else none

/-- Accumulate decimal digits left to right. -/
def parseNatAux : List Char → Nat → Option Nat
  | [], acc => some acc
  | c :: rest, acc =>
    match digitVal c with
    | some d => parseNatAux rest (acc * 10 + d)
    | none => none

/-- A non-empty sequence of decimal digits as a number. -/
def parseNatChars : List Char → Option Nat
  | [] => none
  | l => parseNatAux l 0

/-- Modelled from the spec: whether a day-group label (a single weekday name
or a range label such as "Monday to Friday") covers a given weekday. -/
def dayGroupContains (label weekday : String) : Bool :=
  if label == weekday then true
  else
    match splitFirst (" to ".data) label.data with
    | some (a, b) =>
      match weekdayNames.findIdx? (fun w => w.data == a),
          weekdayNames.findIdx? (fun w => w.data == b),
          weekdayNames.findIdx? (fun w => w == weekday) with
      | some i, some j, some k => decide (i ≤ k) && decide (k ≤ j)
      | _, _, _ => false
    | none => false

/-- A 12-hour clock string such as "10:00 AM", in minutes after midnight. -/
def parseClock (s : String) : Option Nat :=
  match splitFirst (" ".data) s.data with
  | some (hm, ap) =>
    match splitFirst (":".data) hm with
    | some (hs, ms) =>
      match parseNatChars hs, parseNatChars ms with
      | some h, some m =>
        if h = 0 ∨ 12 < h ∨ 59 < m then none
        else if ap = "AM".data then some ((h % 12) * 60 + m)
        else if ap = "PM".data then some ((h % 12 + 12) * 60 + m)
        else none
      | _, _ => none
    | none => none
  | none => none

/-- Whether a time lies inside a declared range string such as
"10:00 AM - 2:00 PM". -/
def timeInRange (time range : String) : Bool :=
  match splitFirst (" - ".data) range.data with
  | some (a, b) =>
    match parseClock time, parseClock ⟨a⟩, parseClock ⟨b⟩ with
    | some t, some lo, some hi => decide (lo ≤ t) && decide (t ≤ hi)
    | _, _, _ => false
  | none => false

/-- Modelled from the spec: the Slot Validator's deterministic day-group
resolution (§4.2) — prefer an exact single-day key match over a range-label
match. -/
def resolveAvailability (avail : List (String × List (String × String)))
    (weekday : String) : Option (List (String × String)) :=
  match avail.find? (fun e => e.1 == weekday) with
  | some e => some e.2
  | none => (avail.find? (fun e => dayGroupContains e.1 weekday)).map Prod.snd

/-- Modelled from the spec: the Slot Validator (§4.2) — a requested
(weekday, time) is valid when the resolved day-group declares a period
whose range contains the time. -/
def slotValid (avail : List (String × List (String × String)))
    (weekday time : String) : Bool :=
  match resolveAvailability avail weekday with
  | none => false
  | some periods => periods.any (fun p => timeInRange time p.2)

/-- The availability mapping of a named doctor of the directory. -/
def doctorAvailability (name : String) : List (String × List (String × String)) :=
  ((get_doctors.find? (fun e => e.1 == name)).map
    (fun e => e.2.availability)).getD []

/-- Run `confirm_patient` once per appointment record, in order, threading
the local file through and collecting the returned strings. -/
def runConfirms (fs : Option (List LocalRec)) :
    List LocalRec → Option (List LocalRec) × List String
  | [] => (fs, [])
  | a :: rest =>
    let r := confirm_patient fs a.patient a.doctor a.date a.time
    let rr := runConfirms r.fs rest
    (rr.1, r.message :: rr.2)

/-- A failing conflict-check response: the query endpoint answers 500. -/
def badCheck : HttpResp := ⟨500, none⟩

/-- Two `save_appointment` calls for the same (doctor, date, time) slot,
both made while the conflict-check endpoint is failing, both acknowledged
by the store. -/
def dupSteps : List Step :=
  [ .save badCheck 200 "Ali" "ali@mail.com" "Dr. Khan" "2025-01-06" "11:00 AM",
    .save badCheck 200 "Bilal" "bilal@mail.com" "Dr. Khan" "2025-01-06" "11:00 AM" ]

/-- A one-document remote store used to instantiate conflict theorems. -/
def demoRemoteStore : List SanityDoc :=
  [mkPendingDoc "Ali" "ali@mail.com" "Dr. Khan" "2025-01-08" "11:00 AM"]

/-- A one-record local store used to instantiate conflict theorems. -/
def demoLocalStore : List LocalRec :=
  [⟨"Ali", "Dr. Khan", "2025-01-08", "11:00 AM"⟩]

/-- Three appointment records with pairwise-distinct slot triples. -/
def demoDistinctApps : List LocalRec :=
  [ ⟨"Ali", "Dr. Khan", "2025-01-06", "11:00 AM"⟩,
    ⟨"Bilal", "Dr. Khan", "2025-01-06", "1:00 PM"⟩,
    ⟨"Sara", "Dr. Ahmed", "2025-01-11", "8:00 PM"⟩ ]

lemma sanityMatches_iff (d dt t : String) (a : SanityDoc) :
    sanityMatches d dt t a = true ↔ a.triple = (d, dt, t) := by
  simp [sanityMatches, SanityDoc.triple, and_assoc]

lemma localMatches_iff (d dt t : String) (a : LocalRec) :
    localMatches d dt t a = true ↔ a.triple = (d, dt, t) := by
  simp [localMatches, LocalRec.triple, and_assoc]

lemma queryFind_eq_none_iff (store : List SanityDoc) (d dt t : String) :
    queryFind store d dt t = none ↔ ∀ a ∈ store, a.triple ≠ (d, dt, t) := by
  simp [queryFind, List.find?_eq_none, sanityMatches_iff]

lemma localAny_eq_false_iff (l : List LocalRec) (d dt t : String) :
    l.any (localMatches d dt t) = false ↔ ∀ a ∈ l, a.triple ≠ (d, dt, t) := by
  simp [List.any_eq_true, localMatches_iff]

lemma nodup_append_singleton {α : Type} (l : List α) (x : α) :
    (l ++ [x]).Nodup ↔ x ∉ l ∧ l.Nodup := by
  rw [(List.perm_append_singleton x l).nodup_iff, List.nodup_cons]

/-- C1: against an honestly-answering conflict-check endpoint,
`save_appointment` refuses an already-taken (doctorName, date, time) slot —
returning the slot-already-booked string, submitting no create mutation and
leaving the remote store unchanged — and on a free slot it submits exactly
one create mutation, so that an acknowledged write grows the store by
exactly that one record. -/
theorem save_appointment_conflict_checked
    (store : List SanityDoc) (mutStatus : Nat) (p e d dt t : String) :
    (queryFind store d dt t ≠ none →
      save_appointment store (honestCheck store d dt t) mutStatus p e d dt t =
        ⟨store, none, "⛔ Sorry, this time slot is already booked!"⟩) ∧
    (queryFind store d dt t = none →
      (save_appointment store (honestCheck store d dt t) mutStatus p e d dt t).submitted =
          some (mkPendingDoc p e d dt t) ∧
        (mutStatus = 200 →
          (save_appointment store (honestCheck store d dt t) mutStatus p e d dt t).store =
            store ++ [mkPendingDoc p e d dt t])) := by
  constructor
  · intro h
    have hs : (queryFind store d dt t).isSome = true := Option.ne_none_iff_isSome.mp h
    simp [save_appointment, honestCheck, hs]
  · intro h
    refine ⟨?_, ?_⟩ <;> by_cases hm : mutStatus = 200 <;>
      simp [save_appointment, honestCheck, h, hm]

/-- Witness for C1: a store holding Dr. Khan on 2025-01-08 at 11:00 AM
rejects a second booking of that slot, and an empty store accepts a
booking of a free slot, gaining exactly that record. -/
theorem save_appointment_conflict_checked_witness :
    (save_appointment demoRemoteStore
        (honestCheck demoRemoteStore "Dr. Khan" "2025-01-08" "11:00 AM") 200
        "Bilal" "bilal@mail.com" "Dr. Khan" "2025-01-08" "11:00 AM" =
      ⟨demoRemoteStore, none, "⛔ Sorry, this time slot is already booked!"⟩) ∧
    ((save_appointment [] (honestCheck [] "Dr. Ahmed" "2025-01-11" "8:00 PM") 200
        "Sara" "sara@mail.com" "Dr. Ahmed" "2025-01-11" "8:00 PM").store =
      [mkPendingDoc "Sara" "sara@mail.com" "Dr. Ahmed" "2025-01-11" "8:00 PM"]) :=
  ⟨(save_appointment_conflict_checked demoRemoteStore 200
      "Bilal" "bilal@mail.com" "Dr. Khan" "2025-01-08" "11:00 AM").1 (by decide),
   ((save_appointment_conflict_checked [] 200
      "Sara" "sara@mail.com" "Dr. Ahmed" "2025-01-11" "8:00 PM").2 rfl).2 rfl⟩

/-- C2: when the local store already holds a record with the requested
(doctor, date, time) triple, `confirm_patient` answers the already-booked
string, performs no write, and returns the file exactly as it was. -/
theorem confirm_patient_duplicate_unchanged
    (fs : Option (List LocalRec)) (p d dt t : String)
    (h : ∃ a ∈ readStore fs, a.triple = (d, dt, t)) :
    confirm_patient fs p d dt t =
      ⟨fs, false, "❌ Doctor already booked at that time."⟩ := by
  obtain ⟨a, ha, hta⟩ := h
  have hany : (readStore fs).any (localMatches d dt t) = true :=
    List.any_eq_true.mpr ⟨a, ha, (localMatches_iff d dt t a).mpr hta⟩
  simp [confirm_patient, hany]

/-- Witness for C2: a duplicate of the stored Dr. Khan slot is rejected and
the store is returned untouched, unwritten. -/
theorem confirm_patient_duplicate_unchanged_witness :
    confirm_patient (some demoLocalStore) "Bilal" "Dr. Khan" "2025-01-08" "11:00 AM" =
      ⟨some demoLocalStore, false, "❌ Doctor already booked at that time."⟩ :=
  confirm_patient_duplicate_unchanged (some demoLocalStore)
    "Bilal" "Dr. Khan" "2025-01-08" "11:00 AM"
    ⟨⟨"Ali", "Dr. Khan", "2025-01-08", "11:00 AM"⟩, by decide, rfl⟩

lemma runConfirms_fresh (apps : List LocalRec) :
    ∀ fs : Option (List LocalRec),
      apps.Pairwise (fun a b => a.triple ≠ b.triple) →
      (∀ a ∈ apps, ∀ b ∈ readStore fs, b.triple ≠ a.triple) →
      readStore (runConfirms fs apps).1 = readStore fs ++ apps ∧
      (runConfirms fs apps).2 =
        apps.map (fun a => confirmMsg a.patient a.doctor a.date a.time) := by
  induction apps with
  | nil => intro fs _ _; simp [runConfirms]
  | cons a rest ih =>
    intro fs hp hfresh
    have hnomatch : (readStore fs).any (localMatches a.doctor a.date a.time) = false := by
      rw [localAny_eq_false_iff]
      intro b hb
      exact hfresh a (List.mem_cons_self a rest) b hb
    have hstep : confirm_patient fs a.patient a.doctor a.date a.time =
        ⟨some (readStore fs ++ [a]), true, confirmMsg a.patient a.doctor a.date a.time⟩ := by
      simp [confirm_patient, hnomatch]
    have htail := ih (some (readStore fs ++ [a])) hp.of_cons ?_
    · rw [runConfirms, hstep]
      refine ⟨?_, ?_⟩
      · simp only [readStore, Option.getD_some] at htail
        simpa [List.append_assoc] using htail.1
      · simpa using htail.2
    · intro x hx b hb
      simp only [readStore, Option.getD_some, List.mem_append, List.mem_singleton] at hb
      rcases hb with hb | hb
      · exact hfresh x (List.mem_cons_of_mem a hx) b hb
      · subst hb
        exact (List.pairwise_cons.mp hp).1 x hx

/-- C3: starting from an absent file — and likewise from an empty one —
running `confirm_patient` over appointments with pairwise-distinct
(doctor, date, time) triples returns the success string for every call and
leaves the store holding exactly those records in call order. -/
theorem confirm_patient_distinct_run (apps : List LocalRec)
    (h : apps.Pairwise (fun a b => a.triple ≠ b.triple)) :
    (readStore (runConfirms none apps).1 = apps ∧
      (runConfirms none apps).2 =
        apps.map (fun a => confirmMsg a.patient a.doctor a.date a.time)) ∧
    (readStore (runConfirms (some []) apps).1 = apps ∧
      (runConfirms (some []) apps).2 =
        apps.map (fun a => confirmMsg a.patient a.doctor a.date a.time)) := by
  have h1 := runConfirms_fresh apps none h (by intro a _ b hb; simp [readStore] at hb)
  have h2 := runConfirms_fresh apps (some []) h (by intro a _ b hb; simp [readStore] at hb)
  constructor
  · simpa [readStore] using h1
  · simpa [readStore] using h2

/-- Witness for C3: three distinct bookings made against an initially absent
file all succeed and are stored in call order. -/
theorem confirm_patient_distinct_run_witness :
    readStore (runConfirms none demoDistinctApps).1 = demoDistinctApps ∧
    (runConfirms none demoDistinctApps).2 =
      demoDistinctApps.map (fun a => confirmMsg a.patient a.doctor a.date a.time) :=
  (confirm_patient_distinct_run demoDistinctApps (by decide)).1

/-- Counterexample to C4 as stated: from empty storage, two acknowledged
`save_appointment` calls for the same Dr. Khan slot, both made while the
conflict-check endpoint is failing (status 500), reach a state whose remote
store holds two records with the same (doctor, date, time) triple. -/
theorem sinkUnique_not_invariant : ¬ sinkUnique (runSteps initState dupSteps) := by
  decide

lemma save_preserves_nodup (store : List SanityDoc) (ack : Nat) (p e d dt t : String)
    (h : (store.map SanityDoc.triple).Nodup) :
    (((save_appointment store (honestCheck store d dt t) ack p e d dt t).store).map
      SanityDoc.triple).Nodup := by
  rcases hq : queryFind store d dt t with _ | doc
  · have hfresh := (queryFind_eq_none_iff store d dt t).mp hq
    by_cases hm : ack = 200
    · simp only [save_appointment, honestCheck, hq, hm]
      simp only [Option.isSome_none, Bool.and_false, Bool.false_eq_true, if_false,
        beq_self_eq_true, if_true, List.map_append, List.map_cons, List.map_nil]
      rw [nodup_append_singleton]
      refine ⟨?_, h⟩
      intro hmem
      obtain ⟨x, hx, htx⟩ := List.mem_map.mp hmem
      exact hfresh x hx htx
    · simp only [save_appointment, honestCheck, hq]
      simp only [Option.isSome_none, Bool.and_false, Bool.false_eq_true, if_false]
      simp [hm, h]
  · simp [save_appointment, honestCheck, hq, h]

lemma confirm_preserves_nodup (fs : Option (List LocalRec)) (p d dt t : String)
    (h : ((readStore fs).map LocalRec.triple).Nodup) :
    ((readStore (confirm_patient fs p d dt t).fs).map LocalRec.triple).Nodup := by
  rcases hany : (readStore fs).any (localMatches d dt t) with _ | _
  · have hfresh := (localAny_eq_false_iff (readStore fs) d dt t).mp hany
    simp only [confirm_patient, hany, Bool.false_eq_true, if_false]
    simp only [readStore, Option.getD_some, List.map_append, List.map_cons, List.map_nil]
    rw [nodup_append_singleton]
    refine ⟨?_, h⟩
    intro hmem
    obtain ⟨x, hx, htx⟩ := List.mem_map.mp hmem
    exact hfresh x hx htx
  · simp [confirm_patient, hany, h]

/-- C4 (amended): every state reachable from empty storage by
`save_appointment` and `confirm_patient` calls keeps at most one record per
(doctor, date, time) triple in each sink's own storage, provided every
`save_appointment` call's conflict-check query succeeds with status 200 and
reports the remote store's actual contents; `confirm_patient` calls and the
store's write acknowledgements remain arbitrary.  (Without the
conflict-check proviso the remote half fails: `sinkUnique_not_invariant`.) -/
theorem reachableHonest_sinkUnique (s : SysState) (h : ReachableHonest s) :
    sinkUnique s := by
  induction h with
  | init => exact ⟨List.nodup_nil, List.nodup_nil⟩
  | save s ack p e d dt t _ ih =>
    exact ⟨save_preserves_nodup s.remote ack p e d dt t ih.1, ih.2⟩
  | confirm s p d dt t _ ih =>
    exact ⟨ih.1, confirm_preserves_nodup s.localFile p d dt t ih.2⟩

/-- Witness for C4 (amended): the state reached by one honest booking into
the remote store followed by one local confirmation satisfies per-sink slot
uniqueness. -/
theorem reachableHonest_sinkUnique_witness :
    sinkUnique (applyStep
      (applyStep initState
        (.save (honestCheck initState.remote "Dr. Khan" "2025-01-06" "11:00 AM") 200
          "Ali" "ali@mail.com" "Dr. Khan" "2025-01-06" "11:00 AM"))
      (.confirm "Ali" "Dr. Khan" "2025-01-06" "11:00 AM")) :=
  reachableHonest_sinkUnique _
    (ReachableHonest.confirm _ "Ali" "Dr. Khan" "2025-01-06" "11:00 AM"
      (ReachableHonest.save initState 200 "Ali" "ali@mail.com"
        "Dr. Khan" "2025-01-06" "11:00 AM" ReachableHonest.init))

lemma head_crossmark_ne_head_checkmark (x y : String)
    (hx : x.data.head? = some '❌') (hy : y.data.head? = some '✅') : x ≠ y := by
  intro h
  subst h
  rw [hy] at hx
  exact absurd hx (by decide)

/-- C5: `send_doctor_request` always returns a string — the success string
exactly when the webhook answers status 200, the soft-failure string naming
the status on any other response, and the soft-failure string naming the
exception when the call raises. -/
theorem send_doctor_request_soft_failure
    (o : WebhookOutcome) (p d dt t : String) :
    (send_doctor_request o p d dt t = "✅ Doctor notified via webhook!" ↔
      o = .response 200) ∧
    (∀ code, o = .response code → code ≠ 200 →
      send_doctor_request o p d dt t = s!"❌ Webhook failed ({code})") ∧
    (∀ e, o = .except e →
      send_doctor_request o p d dt t = s!"❌ Webhook error: {e}") := by
  rcases o with code | e
  · by_cases hc : code = 200
    · subst hc
      refine ⟨by simp [send_doctor_request], ?_, ?_⟩
      · intro c hcode hne
        exfalso
        exact hne (by injection hcode with h2; exact h2.symm)
      · intro e he
        exact absurd he (by simp)
    · refine ⟨?_, ?_, ?_⟩
      · constructor
        · intro h
          exfalso
          have hmsg : send_doctor_request (.response code) p d dt t =
              s!"❌ Webhook failed ({code})" := by
            simp [send_doctor_request, hc]
          rw [hmsg] at h
          exact head_crossmark_ne_head_checkmark (s!"❌ Webhook failed ({code})")
            "✅ Doctor notified via webhook!" rfl rfl h
        · intro h
          exact absurd (by injection h) hc
      · intro c hcode hne
        injection hcode with h2
        subst h2
        simp [send_doctor_request, hc]
      · intro e he
        exact absurd he (by simp)
  · refine ⟨?_, ?_, ?_⟩
    · constructor
      · intro h
        exfalso
        have hmsg : send_doctor_request (.except e) p d dt t =
            s!"❌ Webhook error: {e}" := rfl
        rw [hmsg] at h
        exact head_crossmark_ne_head_checkmark (s!"❌ Webhook error: {e}")
          "✅ Doctor notified via webhook!" rfl rfl h
      · intro h
        exact absurd h (by simp)
    · intro c hcode _
      exact absurd hcode (by simp)
    · intro e2 he2
      injection he2 with h2
      subst h2
      rfl

/-- Witness for C5: a 200 response yields the success string, a 500 response
the soft-failure string naming 500, and a raised connection error the
soft-failure string naming it. -/
theorem send_doctor_request_soft_failure_witness :
    send_doctor_request (.response 200) "Ali" "Dr. Khan" "2025-01-06" "11:00 AM" =
      "✅ Doctor notified via webhook!" ∧
    send_doctor_request (.response 500) "Ali" "Dr. Khan" "2025-01-06" "11:00 AM" =
      "❌ Webhook failed (500)" ∧
    send_doctor_request (.except "ConnectionError") "Ali" "Dr. Khan" "2025-01-06" "11:00 AM" =
      "❌ Webhook error: ConnectionError" :=
  ⟨(send_doctor_request_soft_failure (.response 200)
      "Ali" "Dr. Khan" "2025-01-06" "11:00 AM").1.mpr rfl,
   ((send_doctor_request_soft_failure (.response 500)
      "Ali" "Dr. Khan" "2025-01-06" "11:00 AM").2.1 500 rfl (by decide)).trans (by decide),
   ((send_doctor_request_soft_failure (.except "ConnectionError")
      "Ali" "Dr. Khan" "2025-01-06" "11:00 AM").2.2 "ConnectionError" rfl).trans (by decide)⟩

lemma check_cond_false (check : HttpResp)
    (h : ¬ (check.status_code = 200 ∧ check.result.isSome = true)) :
    (check.status_code == 200 && check.result.isSome) = false := by
  by_cases h1 : check.status_code = 200
  · have h2 : check.result.isSome = false := by
      cases hi : check.result.isSome
      · rfl
      · exact absurd ⟨h1, hi⟩ h
    simp [h1, h2]
  · simp [h1]

/-- C6: when the conflict check does not signal an existing booking,
`save_appointment` submits one create mutation carrying the supplied
patientName, email, doctorName, date and time with status "pending";
the returned string is the success string exactly when the store
acknowledges with 200, and on any other acknowledgement it is the
write-failed string with the store left unchanged. -/
theorem save_appointment_create_pending
    (store : List SanityDoc) (check : HttpResp) (mutStatus : Nat)
    (p e d dt t : String)
    (h : ¬ (check.status_code = 200 ∧ check.result.isSome = true)) :
    (save_appointment store check mutStatus p e d dt t).submitted =
      some { patientName := p, email := e, doctorName := d, date := dt,
             time := t, status := "pending" } ∧
    ((save_appointment store check mutStatus p e d dt t).message =
        "✅ Appointment saved to Sanity." ↔ mutStatus = 200) ∧
    (mutStatus ≠ 200 →
      (save_appointment store check mutStatus p e d dt t).message =
          "❌ Sanity save failed." ∧
      (save_appointment store check mutStatus p e d dt t).store = store) := by
  have hb := check_cond_false check h
  by_cases hm : mutStatus = 200
  · refine ⟨?_, ?_, ?_⟩
    · simp [save_appointment, hb, hm, mkPendingDoc]
    · simp [save_appointment, hb, hm]
    · intro hne
      exact absurd hm hne
  · refine ⟨?_, ?_, ?_⟩
    · simp [save_appointment, hb, hm, mkPendingDoc]
    · rw [iff_false_intro hm]
      simp only [iff_false]
      intro hbad
      have hmsg : (save_appointment store check mutStatus p e d dt t).message =
          "❌ Sanity save failed." := by
        simp [save_appointment, hb, hm]
      rw [hmsg] at hbad
      exact absurd hbad (by decide)
    · intro _
      constructor <;> simp [save_appointment, hb, hm]

/-- Witness for C6: with a failing conflict check and a store acknowledging
201, the call submits a pending record but reports the write-failed string
and the store stays empty; with acknowledgement 200 it reports success. -/
theorem save_appointment_create_pending_witness :
    ((save_appointment [] ⟨500, none⟩ 201
        "Ali" "ali@mail.com" "Dr. Khan" "2025-01-06" "11:00 AM").submitted =
      some { patientName := "Ali", email := "ali@mail.com", doctorName := "Dr. Khan",
             date := "2025-01-06", time := "11:00 AM", status := "pending" } ∧
    ((save_appointment [] ⟨500, none⟩ 201
        "Ali" "ali@mail.com" "Dr. Khan" "2025-01-06" "11:00 AM").message =
        "❌ Sanity save failed." ∧
      (save_appointment [] ⟨500, none⟩ 201
        "Ali" "ali@mail.com" "Dr. Khan" "2025-01-06" "11:00 AM").store = [])) ∧
    (save_appointment [] ⟨500, none⟩ 200
        "Ali" "ali@mail.com" "Dr. Khan" "2025-01-06" "11:00 AM").message =
      "✅ Appointment saved to Sanity." :=
  ⟨⟨(save_appointment_create_pending [] ⟨500, none⟩ 201
      "Ali" "ali@mail.com" "Dr. Khan" "2025-01-06" "11:00 AM" (by decide)).1,
    (save_appointment_create_pending [] ⟨500, none⟩ 201
      "Ali" "ali@mail.com" "Dr. Khan" "2025-01-06" "11:00 AM" (by decide)).2.2 (by decide)⟩,
   (save_appointment_create_pending [] ⟨500, none⟩ 200
      "Ali" "ali@mail.com" "Dr. Khan" "2025-01-06" "11:00 AM" (by decide)).2.1.mpr rfl⟩

/-- C7: the doctor directory is a non-empty constant — `get_doctors` takes
no input, and no sink invocation changes what the directory query returns. -/
theorem get_doctors_constant_nonempty :
    get_doctors ≠ [] ∧
    ∀ (s : SysState) (st : Step), queryDoctors (applyStep s st) = queryDoctors s :=
  ⟨by decide, fun _ _ => rfl⟩

/-- C8: whenever the conflict-check response does not both carry status 200
and a non-empty result field, `save_appointment` does not report the
already-booked outcome and submits the create mutation anyway; if the store
acknowledges it, the number of stored records matching the requested
(doctorName, date, time) grows by one — even when the slot is already
booked. -/
theorem save_appointment_failed_check_bypasses
    (store : List SanityDoc) (check : HttpResp) (mutStatus : Nat)
    (p e d dt t : String)
    (h : ¬ (check.status_code = 200 ∧ check.result.isSome = true)) :
    (save_appointment store check mutStatus p e d dt t).submitted =
      some (mkPendingDoc p e d dt t) ∧
    (save_appointment store check mutStatus p e d dt t).message ≠
      "⛔ Sorry, this time slot is already booked!" ∧
    (mutStatus = 200 →
      ((save_appointment store check mutStatus p e d dt t).store.filter
          (sanityMatches d dt t)).length =
        (store.filter (sanityMatches d dt t)).length + 1) := by
  have hb := check_cond_false check h
  refine ⟨?_, ?_, ?_⟩
  · by_cases hm : mutStatus = 200 <;> simp [save_appointment, hb, hm]
  · have hmsg : (save_appointment store check mutStatus p e d dt t).message =
        "✅ Appointment saved to Sanity." ∨
        (save_appointment store check mutStatus p e d dt t).message =
        "❌ Sanity save failed." := by
      by_cases hm : mutStatus = 200
      · left; simp [save_appointment, hb, hm]
      · right; simp [save_appointment, hb, hm]
    rcases hmsg with hmsg | hmsg <;> rw [hmsg] <;> decide
  · intro hm
    have hmatch : sanityMatches d dt t (mkPendingDoc p e d dt t) = true := by
      simp [sanityMatches, mkPendingDoc]
    simp [save_appointment, hb, hm, List.filter_append, hmatch]

/-- Witness for C8: with the slot Dr. Khan 2025-01-08 11:00 AM already
stored once, a save under a failing (status 500) conflict check and an
acknowledged write leaves two matching records in the store. -/
theorem save_appointment_failed_check_bypasses_witness :
    ((save_appointment demoRemoteStore ⟨500, none⟩ 200
        "Bilal" "bilal@mail.com" "Dr. Khan" "2025-01-08" "11:00 AM").store.filter
      (sanityMatches "Dr. Khan" "2025-01-08" "11:00 AM")).length = 2 :=
  ((save_appointment_failed_check_bypasses demoRemoteStore ⟨500, none⟩ 200
      "Bilal" "bilal@mail.com" "Dr. Khan" "2025-01-08" "11:00 AM"
      (by decide)).2.2 rfl).trans (by decide)

/-- C9: `confirm_patient` is total at its interface — for every file
condition (missing, unparseable, records lacking keys) and write outcome it
returns one of the three strings: the already-booked string, the
confirmation string, or the wrapped failure string; and every internal
exception (parse error, key error, write error) is rendered into the
failure string with the file left as the exception found it for read and
scan errors. -/
theorem confirm_patient_raw_total (fs : LocalFile) (wf : Bool)
    (p d dt t : String) :
    ((confirm_patient_raw fs wf p d dt t).2 =
        "❌ Doctor already booked at that time." ∨
      (confirm_patient_raw fs wf p d dt t).2 = confirmMsg p d dt t ∨
      ∃ e, (confirm_patient_raw fs wf p d dt t).2 = failMsg e) ∧
    (∀ e, readRaw fs = .error e →
      confirm_patient_raw fs wf p d dt t = (fs, failMsg e)) ∧
    (∀ data e, readRaw fs = .ok data → scanRaw d dt t data = .error e →
      confirm_patient_raw fs wf p d dt t = (fs, failMsg e)) := by
  refine ⟨?_, ?_, ?_⟩
  · rcases hr : readRaw fs with e | data
    · right; right; exact ⟨e, by simp [confirm_patient_raw, hr]⟩
    · rcases hs : scanRaw d dt t data with e | b
      · right; right; exact ⟨e, by simp [confirm_patient_raw, hr, hs]⟩
      · cases b
        · cases wf
          · right; left; simp [confirm_patient_raw, hr, hs]
          · right; right
            exact ⟨"write error", by simp [confirm_patient_raw, hr, hs]⟩
        · left; simp [confirm_patient_raw, hr, hs]
  · intro e he
    simp [confirm_patient_raw, he]
  · intro data e hr hs
    simp [confirm_patient_raw, hr, hs]

/-- Witness for C9: an unparseable file and a record lacking the date key
are both rendered into the wrapped failure string, leaving the file as
found. -/
theorem confirm_patient_raw_total_witness :
    confirm_patient_raw .corrupt false "Ali" "Dr. Khan" "2025-01-06" "11:00 AM" =
      (.corrupt, failMsg "Expecting value: line 1 column 1 (char 0)") ∧
    confirm_patient_raw (.records [⟨some "Ali", some "Dr. Khan", none, none⟩]) false
        "Bilal" "Dr. Khan" "2025-01-06" "11:00 AM" =
      (.records [⟨some "Ali", some "Dr. Khan", none, none⟩], failMsg "KeyError: date") :=
  ⟨(confirm_patient_raw_total .corrupt false
      "Ali" "Dr. Khan" "2025-01-06" "11:00 AM").2.1
      "Expecting value: line 1 column 1 (char 0)" rfl,
   (confirm_patient_raw_total (.records [⟨some "Ali", some "Dr. Khan", none, none⟩]) false
      "Bilal" "Dr. Khan" "2025-01-06" "11:00 AM").2.2
      [⟨some "Ali", some "Dr. Khan", none, none⟩] "KeyError: date" rfl rfl⟩

/-- C10: whenever a doctor's availability declares an entry whose key is
exactly the requested date's weekday, the Slot Validator resolves to that
entry and decides validity by that entry's time ranges alone, regardless of
any range-label entry also covering the weekday. -/
theorem slotValid_single_day_override
    (avail : List (String × List (String × String))) (weekday time : String)
    (entry : String × List (String × String))
    (h : avail.find? (fun e => e.1 == weekday) = some entry) :
    resolveAvailability avail weekday = some entry.2 ∧
    slotValid avail weekday time = entry.2.any (fun pr => timeInRange time pr.2) := by
  refine ⟨?_, ?_⟩ <;> simp [resolveAvailability, slotValid, h]

/-- Witness for C10: for Dr. Ahmed on a Saturday, the validator resolves to
the explicit "Saturday" entry — not the "Monday to Friday" entry listed
first — and accepts 11:00 AM, which only the Saturday ranges allow. -/
theorem slotValid_single_day_override_witness :
    resolveAvailability (doctorAvailability "Dr. Ahmed") "Saturday" =
      some [("Morning", "10:00 AM - 2:00 PM"), ("Evening", "7:00 PM - 11:00 PM")] ∧
    slotValid (doctorAvailability "Dr. Ahmed") "Saturday" "11:00 AM" = true := by
  have h := slotValid_single_day_override (doctorAvailability "Dr. Ahmed")
    "Saturday" "11:00 AM"
    ("Saturday", [("Morning", "10:00 AM - 2:00 PM"), ("Evening", "7:00 PM - 11:00 PM")])
    (by decide)
  exact ⟨h.1, by rw [h.2]; decide⟩
